import Mathlib

/-!
# Tailsnitch: a shallow embedding of the audit engine

This file embeds the parts of the `tailsnitch` Tailscale security auditor
that the verified properties talk about:

* the check registry (`slugify`, the fixed catalog, `resolve`, `resolveAll`)
  from the `types` package;
* the orchestrator (`Auditor.Run` in `pkg/auditor/auditor.go`), modelled as a
  pure function of a `RunEnv` record that supplies the outcome of every
  external fetch and of every category auditor;
* the report summary (`CalculateSummary`, modelled from the specification,
  since the `types` package file holding it is not among the sources).

Go strings are modelled as Lean `String`s; the Go case-folding and trimming
functions are modelled character-wise over `String.data`, which agrees with
Go on the ASCII data the program manipulates.  Go errors are modelled by
their message strings, and fallible operations by `Except String`.
-/

set_option maxHeartbeats 1000000

namespace Tailsnitch

/-! ## Data model (`types` package) -/

/-- Severity levels, ordered Critical strongest. -/
inductive Severity where
  | critical
  | high
  | medium
  | low
  | info
deriving DecidableEq, BEq

/-- The seven check categories. -/
inductive Category where
  | accessControl
  | authentication
  | deviceSecurity
  | networkExposure
  | sshSecurity
  | loggingAdmin
  | dnsConfiguration
deriving DecidableEq, BEq

/-- A single finding produced by one check (the fields of `types.Suggestion`
that the orchestrator and the verified properties use). -/
structure Suggestion where
  id : String
  title : String
  severity : Severity
  category : Category
  description : String
  remediation : String := ""
  details : List String := []
  pass : Bool
deriving DecidableEq, BEq

/-- Per-severity counts of failing suggestions plus passed/total counts. -/
structure Summary where
  critical : Nat
  high : Nat
  medium : Nat
  low : Nat
  info : Nat
  passed : Nat
  total : Nat
deriving DecidableEq, BEq

/-- The audit report.  `time.Now()` is nondeterministic I/O, so the
timestamp field is not modelled. -/
structure AuditReport where
  tailnet : String
  suggestions : List Suggestion
  summary : Summary
deriving DecidableEq, BEq

/-- Modelled from the spec: `AuditReport.CalculateSummary` lives in the
`types` package, whose summary file is not among the provided sources.
Spec §3: "Summary: per-severity counts of failing suggestions, passed
count, total count; total = passed + Σ severity counts." -/
def calculateSummary (ss : List Suggestion) : Summary where
  critical := ss.countP (fun s => !s.pass && s.severity == Severity.critical)
  high := ss.countP (fun s => !s.pass && s.severity == Severity.high)
  medium := ss.countP (fun s => !s.pass && s.severity == Severity.medium)
  low := ss.countP (fun s => !s.pass && s.severity == Severity.low)
  info := ss.countP (fun s => !s.pass && s.severity == Severity.info)
  passed := ss.countP (fun s => s.pass)
  total := ss.length

/-! ## Go string primitives, character-wise over `String.data` -/

/-- Does `sub` occur as a contiguous run inside the second list? -/
def listContains (sub : List Char) : List Char → Bool
  | [] => sub.isEmpty
  | c :: rest => sub.isPrefixOf (c :: rest) || listContains sub rest

/-- Go `strings.Contains(s, sub)`. -/
def strContains (s sub : String) : Bool :=
  listContains sub.data s.data

/-- Go `strings.ToUpper`, on the ASCII range. -/
def goToUpper (s : String) : String :=
  ⟨s.data.map Char.toUpper⟩

/-- Go `strings.ToLower`, on the ASCII range. -/
def goToLower (s : String) : String :=
  ⟨s.data.map Char.toLower⟩

/-- Go `unicode.IsSpace`, on the ASCII range: space, tab, newline,
vertical tab, form feed, carriage return. -/
def goIsSpace (c : Char) : Bool :=
  c == ' ' || c == '\t' || c == '\n' || c.toNat == 11 || c.toNat == 12 || c.toNat == 13

/-- Go `strings.TrimSpace` on a character list. -/
def trimSpaceList (cs : List Char) : List Char :=
  ((cs.dropWhile goIsSpace).reverse.dropWhile goIsSpace).reverse

/-- Go `strings.TrimSpace`. -/
def trimString (s : String) : String :=
  ⟨trimSpaceList s.data⟩

/-! ## Check registry (`types` package, registry file) -/

/-- Characters kept verbatim by the `[^a-z0-9]+` replacement in `slugify`
(the input is already lower-cased at that point). -/
def isSlugAlnum (c : Char) : Bool :=
  (97 ≤ c.toNat && c.toNat ≤ 122) || (48 ≤ c.toNat && c.toNat ≤ 57)

/-- `regexp.MustCompile("[^a-z0-9]+").ReplaceAllString(s, "-")`: each maximal
run of characters outside `[a-z0-9]` becomes a single hyphen.  The flag
records whether the previous character was part of such a run. -/
def squashNonAlnum : List Char → Bool → List Char
  | [], _ => []
  | c :: rest, inRun =>
    if isSlugAlnum c then c :: squashNonAlnum rest false
    else if inRun then squashNonAlnum rest true
    else '-' :: squashNonAlnum rest true

/-- `strings.Trim(s, "-")`. -/
def trimHyphens (cs : List Char) : List Char :=
  ((cs.dropWhile (fun c => c == '-')).reverse.dropWhile (fun c => c == '-')).reverse

/-- The parenthetical-suffix cut in `slugify`:
`if idx := strings.Index(s, "("); idx > 0 { s = strings.TrimSpace(s[:idx]) }`. -/
def cutParen (cs : List Char) : List Char :=
  match cs.findIdx? (fun c => c == '(') with
  | some i => if 0 < i then trimSpaceList (cs.take i) else cs
  | none => cs

/-- `slugify` from the registry file: cut a trailing parenthetical, lower-case,
delete apostrophes (both `ReplaceAll` calls in the source remove the ASCII
apostrophe), replace non-alphanumeric runs with one hyphen, trim hyphens. -/
def slugify (s : String) : String :=
  let cs := cutParen s.data
  let cs := cs.map Char.toLower
  let cs := cs.filter (fun c => !(c == '\x27'))
  ⟨trimHyphens (squashNonAlnum cs false)⟩

/-- Check metadata (`types.CheckInfo`). -/
structure CheckInfo where
  id : String
  slug : String
  title : String
  category : Category
deriving DecidableEq, BEq

/-- The fixed catalog of `NewCheckRegistry`, as (ID, Title, Category). -/
def rawChecks : List (String × String × Category) :=
  [ ("ACL-001", "Default \x27allow all\x27 policy active", Category.accessControl)
  , ("ACL-002", "SSH autogroup:nonroot misconfiguration", Category.accessControl)
  , ("ACL-003", "No ACL tests defined", Category.accessControl)
  , ("ACL-004", "autogroup:member grants access to external users", Category.accessControl)
  , ("ACL-005", "AutoApprovers bypass administrative route approval", Category.accessControl)
  , ("ACL-006", "tagOwners grants tag privileges too broadly", Category.accessControl)
  , ("ACL-007", "autogroup:danger-all grants access to everyone", Category.accessControl)
  , ("ACL-008", "No groups defined in ACL policy", Category.accessControl)
  , ("ACL-009", "Using legacy ACLs instead of grants", Category.accessControl)
  , ("ACL-010", "Taildrop file sharing configuration", Category.accessControl)
  , ("AUTH-001", "Reusable auth keys exist", Category.authentication)
  , ("AUTH-002", "Auth keys with long expiry period", Category.authentication)
  , ("AUTH-003", "Pre-authorized auth keys bypass device approval", Category.authentication)
  , ("AUTH-004", "Non-ephemeral keys may be used for CI/CD", Category.authentication)
  , ("DEV-001", "Tagged devices with key expiry disabled", Category.deviceSecurity)
  , ("DEV-002", "User devices tagged", Category.deviceSecurity)
  , ("DEV-003", "Outdated Tailscale clients", Category.deviceSecurity)
  , ("DEV-004", "Stale devices not seen recently", Category.deviceSecurity)
  , ("DEV-005", "Unauthorized devices pending approval", Category.deviceSecurity)
  , ("DEV-006", "External devices in tailnet", Category.deviceSecurity)
  , ("DEV-007", "Potentially sensitive machine names", Category.deviceSecurity)
  , ("DEV-008", "Devices with long key expiry periods", Category.deviceSecurity)
  , ("DEV-009", "Device approval configuration", Category.deviceSecurity)
  , ("DEV-010", "Tailnet Lock not enabled", Category.deviceSecurity)
  , ("DEV-011", "Unique users in tailnet", Category.deviceSecurity)
  , ("DEV-012", "Nodes awaiting Tailnet Lock signature", Category.deviceSecurity)
  , ("DEV-013", "Device posture configuration", Category.loggingAdmin)
  , ("NET-001", "Funnel exposes services to public internet", Category.networkExposure)
  , ("NET-002", "Exit node access configuration", Category.networkExposure)
  , ("NET-003", "Subnet routes expose trust boundary", Category.networkExposure)
  , ("NET-004", "HTTPS certificates publish names to CT logs", Category.networkExposure)
  , ("NET-005", "Exit nodes can see all internet traffic", Category.networkExposure)
  , ("NET-006", "Tailscale Serve exposes services on tailnet", Category.networkExposure)
  , ("NET-007", "App connectors provide SaaS access", Category.networkExposure)
  , ("SSH-001", "SSH session recording not enforced", Category.sshSecurity)
  , ("SSH-002", "High-risk SSH access without check mode", Category.sshSecurity)
  , ("SSH-003", "Session recorder UI may be exposed", Category.sshSecurity)
  , ("SSH-004", "Tailscale SSH configuration", Category.sshSecurity)
  , ("LOG-001", "Network flow logs configuration", Category.loggingAdmin)
  , ("LOG-002", "Log streaming for long-term retention", Category.loggingAdmin)
  , ("LOG-003", "Audit log limitations", Category.loggingAdmin)
  , ("LOG-004", "Failed login monitoring via IdP", Category.loggingAdmin)
  , ("LOG-005", "Webhook secrets never expire", Category.loggingAdmin)
  , ("LOG-006", "OAuth clients persist after user removal", Category.loggingAdmin)
  , ("LOG-007", "SCIM API keys never expire", Category.loggingAdmin)
  , ("LOG-008", "Passkey-authenticated backup admin", Category.loggingAdmin)
  , ("LOG-009", "MFA enforcement in identity provider", Category.loggingAdmin)
  , ("LOG-010", "DNS rebinding attack protection", Category.loggingAdmin)
  , ("LOG-011", "Security contact email configuration", Category.loggingAdmin)
  , ("LOG-012", "Webhooks for critical events", Category.loggingAdmin)
  , ("USER-001", "Review user roles and ownership", Category.loggingAdmin)
  , ("DNS-001", "MagicDNS configuration", Category.dnsConfiguration)
  ]

/-- The registry contents after `NewCheckRegistry`: every entry gets
`Slug = slugify(Title)`. -/
def checks : List CheckInfo :=
  rawChecks.map (fun rc => { id := rc.1, slug := slugify rc.2.1, title := rc.2.1, category := rc.2.2 })

/-- `CheckRegistry.Resolve`: look the name up as an ID (case-insensitively,
via the `byID` map keyed by upper-cased IDs), else as a slug (via the
`bySlug` map keyed by the lower-case slugs); the canonical ID is returned.
The Go maps have pairwise-distinct keys (proved below), so a first-match
scan of the catalog models them exactly. -/
def resolve (name : String) : Option String :=
  match checks.find? (fun c => goToUpper c.id == goToUpper name) with
  | some c => some c.id
  | none =>
    match checks.find? (fun c => c.slug == goToLower name) with
    | some c => some c.id
    | none => none

/-- The loop body of `CheckRegistry.ResolveAll`: trim each name, skip the
ones that trim to empty, collect resolved IDs and unresolved names in
input order. -/
def resolveAllAux : List String → List String × List String
  | [] => ([], [])
  | n :: rest =>
    let name := trimString n
    if name == "" then resolveAllAux rest
    else
      match resolve name with
      | some cid =>
        let r := resolveAllAux rest
        (cid :: r.1, r.2)
      | none =>
        let r := resolveAllAux rest
        (r.1, name :: r.2)

/-- `CheckRegistry.ResolveAll`: fail with a single message naming every
unresolved name, else return the IDs. -/
def resolveAll (names : List String) : Except String (List String) :=
  let r := resolveAllAux names
  if r.2.isEmpty then Except.ok r.1
  else Except.error ("unknown check(s): " ++ String.intercalate ", " r.2)

/-! ## Orchestrator (`pkg/auditor/auditor.go`)

`Auditor.Run` performs I/O through the client and through the per-category
auditors.  The embedding abstracts that boundary: a `RunEnv` supplies the
outcome of the one shared ACL-policy fetch, of the two parse steps, and
of each of the seven category audits (the network and SSH audits as
functions of the policy value they are handed).  `run` then mirrors the
control flow of `Auditor.Run` line by line. -/

/-- `isAuthError` from `pkg/auditor/auditor.go` (the `err == nil` case does
not arise: the model only applies it to a present error message). -/
def isAuthError (e : String) : Bool :=
  strContains e "401" ||
  strContains e "API token invalid" ||
  strContains e "Unauthorized" ||
  strContains e "403" ||
  strContains e "Forbidden"

/-- The outcomes of every external interaction `Auditor.Run` performs,
with the policy type abstract (the `ACLPolicy` struct is consumed
opaquely by `Run`). -/
structure RunEnv (Policy : Type) where
  tailnet : String
  aclFetch : Except String String
  standardize : String → Except String String
  unmarshal : String → Except String Policy
  aclAudit : Except String (List Suggestion)
  authAudit : Except String (List Suggestion)
  deviceAudit : Except String (List Suggestion)
  networkAudit : Policy → Except String (List Suggestion)
  sshAudit : Policy → Except String (List Suggestion)
  loggingAudit : Except String (List Suggestion)
  dnsAudit : Except String (List Suggestion)

/-- The wrapped error returned on an authentication-class fetch failure. -/
def authFailureMessage (e : String) : String :=
  "authentication failed: " ++ e ++
    "\n\nPlease check your TSKEY environment variable contains a valid API key.\nGenerate a new key at: https://login.tailscale.com/admin/settings/keys"

/-- The `SYS-001` placeholder appended when the ACL fetch fails non-fatally. -/
def sysAclFetchFailed (e : String) : Suggestion where
  id := "SYS-001"
  title := "Could not retrieve ACL policy"
  severity := Severity.high
  category := Category.accessControl
  description := "Failed to retrieve ACL policy: " ++ e ++ ". ACL-related checks will be skipped."
  remediation := "Verify API key has sufficient permissions to read ACL policy."
  pass := false

/-- The `SYS-002` warning appended when HuJSON standardization fails. -/
def sysAclStandardizeWarning (e : String) : Suggestion where
  id := "SYS-002"
  title := "ACL policy parsing warning"
  severity := Severity.low
  category := Category.accessControl
  description := "Could not standardize HuJSON ACL: " ++ e ++ ". Some checks may be incomplete."
  pass := true

/-- The `SYS-002` warning appended when JSON unmarshalling fails. -/
def sysAclParseWarning (e : String) : Suggestion where
  id := "SYS-002"
  title := "ACL policy parsing warning"
  severity := Severity.low
  category := Category.accessControl
  description := "ACL policy could not be fully parsed: " ++ e ++ ". Some checks may be incomplete."
  pass := true

/-- The `ACL-ERR` placeholder for a failed ACL category audit. -/
def aclErrSuggestion (e : String) : Suggestion where
  id := "ACL-ERR"
  title := "ACL audit error"
  severity := Severity.medium
  category := Category.accessControl
  description := "Error during ACL audit: " ++ e
  pass := false

/-- The `AUTH-ERR` placeholder for a failed auth-key category audit. -/
def authErrSuggestion (e : String) : Suggestion where
  id := "AUTH-ERR"
  title := "Auth audit error"
  severity := Severity.medium
  category := Category.authentication
  description := "Error during auth key audit: " ++ e
  pass := false

/-- The `DEV-ERR` placeholder for a failed device category audit. -/
def devErrSuggestion (e : String) : Suggestion where
  id := "DEV-ERR"
  title := "Device audit error"
  severity := Severity.medium
  category := Category.deviceSecurity
  description := "Error during device audit: " ++ e
  pass := false

/-- The `NET-ERR` placeholder for a failed network category audit. -/
def netErrSuggestion (e : String) : Suggestion where
  id := "NET-ERR"
  title := "Network audit error"
  severity := Severity.medium
  category := Category.networkExposure
  description := "Error during network audit: " ++ e
  pass := false

/-- The `SSH-ERR` placeholder for a failed SSH category audit. -/
def sshErrSuggestion (e : String) : Suggestion where
  id := "SSH-ERR"
  title := "SSH audit error"
  severity := Severity.medium
  category := Category.sshSecurity
  description := "Error during SSH audit: " ++ e
  pass := false

/-- The `LOG-ERR` placeholder for a failed logging category audit. -/
def logErrSuggestion (e : String) : Suggestion where
  id := "LOG-ERR"
  title := "Logging audit error"
  severity := Severity.medium
  category := Category.loggingAdmin
  description := "Error during logging audit: " ++ e
  pass := false

/-- The `DNS-ERR` placeholder for a failed DNS category audit. -/
def dnsErrSuggestion (e : String) : Suggestion where
  id := "DNS-ERR"
  title := "DNS audit error"
  severity := Severity.medium
  category := Category.dnsConfiguration
  description := "Error during DNS audit: " ++ e
  pass := false

/-- Lines 88–198 of `Auditor.Run`: the seven category blocks in source
order, each appending its findings on success and its `<CATEGORY>-ERR`
placeholder on failure.  The network and SSH blocks receive the policy
value held by the `policy` variable at that point of `Run`. -/
def categoryBlocks {Policy : Type} (env : RunEnv Policy) (policy : Policy) : List Suggestion :=
  (match env.aclAudit with
   | Except.ok fs => fs
   | Except.error e => [aclErrSuggestion e]) ++
  (match env.authAudit with
   | Except.ok fs => fs
   | Except.error e => [authErrSuggestion e]) ++
  (match env.deviceAudit with
   | Except.ok fs => fs
   | Except.error e => [devErrSuggestion e]) ++
  (match env.networkAudit policy with
   | Except.ok fs => fs
   | Except.error e => [netErrSuggestion e]) ++
  (match env.sshAudit policy with
   | Except.ok fs => fs
   | Except.error e => [sshErrSuggestion e]) ++
  (match env.loggingAudit with
   | Except.ok fs => fs
   | Except.error e => [logErrSuggestion e]) ++
  (match env.dnsAudit with
   | Except.ok fs => fs
   | Except.error e => [dnsErrSuggestion e])

/-- `Auditor.Run`: fetch the shared ACL policy once (failing fast on an
authentication-class error), parse it (each parse failure adding one
`SYS-002` warning and leaving the zero-value policy), run the seven
category audits in order, and compute the summary once at the end.
`zero` is the zero value of the Go `ACLPolicy` variable. -/
def run {Policy : Type} (zero : Policy) (env : RunEnv Policy) : Except String AuditReport :=
  match env.aclFetch with
  | Except.error e =>
    if isAuthError e then Except.error (authFailureMessage e)
    else
      let suggestions := sysAclFetchFailed e :: categoryBlocks env zero
      Except.ok { tailnet := env.tailnet, suggestions := suggestions, summary := calculateSummary suggestions }
  | Except.ok acl =>
    match env.standardize acl with
    | Except.error e =>
      let suggestions := sysAclStandardizeWarning e :: categoryBlocks env zero
      Except.ok { tailnet := env.tailnet, suggestions := suggestions, summary := calculateSummary suggestions }
    | Except.ok std =>
      match env.unmarshal std with
      | Except.error e =>
        let suggestions := sysAclParseWarning e :: categoryBlocks env zero
        Except.ok { tailnet := env.tailnet, suggestions := suggestions, summary := calculateSummary suggestions }
      | Except.ok policy =>
        let suggestions := categoryBlocks env policy
        Except.ok { tailnet := env.tailnet, suggestions := suggestions, summary := calculateSummary suggestions }

/-- Observable steps of one `Auditor.Run`, used to state once-and-in-order
properties. -/
inductive RunEvent where
  | fetchPolicy
  | runCategory (c : Category)
  | computeSummary
deriving DecidableEq, BEq

/-- The fixed category order of `Auditor.Run`. -/
def categoryOrder : List Category :=
  [ Category.accessControl, Category.authentication, Category.deviceSecurity
  , Category.networkExposure, Category.sshSecurity, Category.loggingAdmin
  , Category.dnsConfiguration ]

/-- The step trace of `Auditor.Run` on an environment: the one policy
fetch, then — unless the fetch failed with an authentication-class error —
the seven category audits in source order followed by the one summary
computation. -/
def runTrace {Policy : Type} (env : RunEnv Policy) : List RunEvent :=
  RunEvent.fetchPolicy ::
    (match env.aclFetch with
     | Except.error e =>
       if isAuthError e then []
       else categoryOrder.map RunEvent.runCategory ++ [RunEvent.computeSummary]
     | Except.ok _ => categoryOrder.map RunEvent.runCategory ++ [RunEvent.computeSummary])

/-! ## Concrete values used to exercise the theorems -/

/-- A passing low-severity finding, used to exercise the summary laws. -/
def demoPassing : Suggestion where
  id := "DEV-001"
  title := "Tagged devices with key expiry disabled"
  severity := Severity.low
  category := Category.deviceSecurity
  description := "ok"
  pass := true

/-- A failing critical finding, used to exercise the summary laws. -/
def demoCritical : Suggestion where
  id := "ACL-001"
  title := "Default allow all policy active"
  severity := Severity.critical
  category := Category.accessControl
  description := "bad"
  pass := false

/-- An environment in which every fetch and every category audit succeeds
with no findings. -/
def unitEnvOk : RunEnv Unit where
  tailnet := "example.com"
  aclFetch := Except.ok "{}"
  standardize := fun s => Except.ok s
  unmarshal := fun _ => Except.ok ()
  aclAudit := Except.ok []
  authAudit := Except.ok []
  deviceAudit := Except.ok []
  networkAudit := fun _ => Except.ok []
  sshAudit := fun _ => Except.ok []
  loggingAudit := Except.ok []
  dnsAudit := Except.ok []

/-- The successful environment with the shared fetch failing as an
authentication error. -/
def authFailEnv : RunEnv Unit :=
  { unitEnvOk with aclFetch := Except.error "401 Unauthorized" }

/-- The successful environment with the shared fetch failing with a
non-authentication error. -/
def cexEnv : RunEnv Unit :=
  { unitEnvOk with aclFetch := Except.error "boom" }

/-- The successful environment with HuJSON standardization failing. -/
def parseFailEnv : RunEnv Unit :=
  { unitEnvOk with standardize := fun _ => Except.error "bad hujson" }

/-- The successful environment with the device category audit failing. -/
def deviceFailEnv : RunEnv Unit :=
  { unitEnvOk with deviceAudit := Except.error "device fetch failed" }

/-! ## Helper lemmas -/

theorem char_toNat_ofNat_valid (n : Nat) (h : n.isValidChar) : (Char.ofNat n).toNat = n := by
  rw [Char.ofNat, dif_pos h]
  rfl

theorem char_toUpper_toLower (c : Char) : c.toLower.toUpper = c.toUpper := by
  simp only [Char.toLower, Char.toUpper]
  by_cases h : c.toNat ≥ 65 ∧ c.toNat ≤ 90
  · rw [if_pos h]
    have hv : (c.toNat + 32).isValidChar := Or.inl (by omega)
    have ht : (Char.ofNat (c.toNat + 32)).toNat = c.toNat + 32 := char_toNat_ofNat_valid _ hv
    rw [ht]
    rw [if_pos (by omega : c.toNat + 32 ≥ 97 ∧ c.toNat + 32 ≤ 122)]
    rw [if_neg (by omega : ¬(c.toNat ≥ 97 ∧ c.toNat ≤ 122))]
    have h32 : c.toNat + 32 - 32 = c.toNat := by omega
    rw [h32, Char.ofNat_toNat]
  · rw [if_neg h]

theorem goToUpper_goToLower (s : String) : goToUpper (goToLower s) = goToUpper s := by
  unfold goToUpper goToLower
  refine congrArg String.mk ?_
  show (s.data.map Char.toLower).map Char.toUpper = s.data.map Char.toUpper
  rw [List.map_map]
  exact List.map_congr_left (fun a _ => char_toUpper_toLower a)

theorem checks_slug_nodup : (checks.map (fun c => c.slug)).Nodup := by decide

theorem checks_idUpper_nodup : (checks.map (fun c => goToUpper c.id)).Nodup := by decide

theorem checks_idUpper_ne_slugUpper :
    (checks.all (fun c => checks.all (fun c2 => !(goToUpper c2.id == goToUpper c.slug)))) = true := by
  decide

theorem resolveAllAux_spec (names : List String) :
    (resolveAllAux names).1 =
      names.filterMap (fun n => if trimString n = "" then none else resolve (trimString n)) ∧
    (resolveAllAux names).2 =
      names.filterMap (fun n =>
        if trimString n = "" then none
        else
          match resolve (trimString n) with
          | some _ => none
          | none => some (trimString n)) := by
  induction names with
  | nil => exact ⟨rfl, rfl⟩
  | cons n rest ih =>
    simp only [resolveAllAux, List.filterMap_cons]
    by_cases h : trimString n = ""
    · simp [h, ih.1, ih.2]
    · cases hr : resolve (trimString n) with
      | some cid => simp [h, hr, ih.1, ih.2]
      | none => simp [h, hr, ih.1, ih.2]

theorem resolveAllAux_filter (names : List String) :
    resolveAllAux (names.filter (fun n => !(trimString n == ""))) = resolveAllAux names := by
  induction names with
  | nil => rfl
  | cons n rest ih =>
    by_cases h : trimString n = ""
    · simp only [List.filter_cons, h]
      simp only [resolveAllAux, h]
      simpa [h] using ih
    · simp only [List.filter_cons]
      have hb : (!(trimString n == "")) = true := by simp [h]
      rw [hb]
      simp only [resolveAllAux]
      have hb2 : (trimString n == "") = false := by simp [h]
      rw [hb2]
      simp only [Bool.false_eq_true, if_false]
      cases hr : resolve (trimString n) <;> simp [ih]

/-! ## Claim theorems: check registry -/

/-- C7: in the registry built by `NewCheckRegistry`, every entry's slug is
`slugify` of its title, and the slugs of all catalog entries are pairwise
distinct. -/
theorem c7_slugs_derived_and_distinct :
    (checks.all (fun c => c.slug == slugify c.title)) = true ∧
    (checks.map (fun c => c.slug)).Nodup :=
  ⟨by decide, checks_slug_nodup⟩

/-- C6: `Resolve` returns the canonical ID for a case-insensitive ID match,
otherwise for a case-insensitive slug match, and returns nothing for every
other name; in particular `Resolve "acl-001"` succeeds with `"ACL-001"`. -/
theorem c6_resolve_case_insensitive :
    (∀ c ∈ checks, ∀ name : String, goToUpper name = goToUpper c.id → resolve name = some c.id) ∧
    (∀ c ∈ checks, ∀ name : String, goToLower name = c.slug → resolve name = some c.id) ∧
    (∀ name : String,
      (∀ c ∈ checks, goToUpper name ≠ goToUpper c.id ∧ goToLower name ≠ c.slug) →
      resolve name = none) ∧
    resolve "acl-001" = some "ACL-001" := by
  refine ⟨?_, ?_, ?_, rfl⟩
  · intro c hc name hname
    unfold resolve
    cases hfind : checks.find? (fun c2 => goToUpper c2.id == goToUpper name) with
    | none =>
      exfalso
      have hnc := List.find?_eq_none.mp hfind c hc
      simp only [beq_iff_eq] at hnc
      exact hnc hname.symm
    | some c2 =>
      simp only []
      have hm := List.mem_of_find?_eq_some hfind
      have hp := List.find?_some hfind
      simp only [beq_iff_eq] at hp
      have hcc : c2 = c :=
        List.inj_on_of_nodup_map checks_idUpper_nodup hm hc (hp.trans hname)
      rw [hcc]
  · intro c hc name hname
    have hupper : goToUpper name = goToUpper c.slug := by
      rw [← goToUpper_goToLower name, hname]
    have hnone : checks.find? (fun c2 => goToUpper c2.id == goToUpper name) = none := by
      apply List.find?_eq_none.mpr
      intro c2 hc2
      have hall := List.all_eq_true.mp checks_idUpper_ne_slugUpper c hc
      have hall2 := List.all_eq_true.mp hall c2 hc2
      simp only [Bool.not_eq_eq_eq_not, Bool.not_true, beq_eq_false_iff_ne, ne_eq] at hall2
      simp only [beq_iff_eq, hupper]
      exact hall2
    unfold resolve
    rw [hnone]
    cases hfind : checks.find? (fun c2 => c2.slug == goToLower name) with
    | none =>
      exfalso
      have hnc := List.find?_eq_none.mp hfind c hc
      simp only [beq_iff_eq] at hnc
      exact hnc hname.symm
    | some c2 =>
      simp only []
      have hm := List.mem_of_find?_eq_some hfind
      have hp := List.find?_some hfind
      simp only [beq_iff_eq] at hp
      have hcc : c2 = c :=
        List.inj_on_of_nodup_map checks_slug_nodup hm hc (hp.trans hname)
      rw [hcc]
  · intro name h
    unfold resolve
    have h1 : checks.find? (fun c2 => goToUpper c2.id == goToUpper name) = none := by
      apply List.find?_eq_none.mpr
      intro c2 hc2
      have := (h c2 hc2).1
      simp only [beq_iff_eq]
      exact fun hq => this hq.symm
    have h2 : checks.find? (fun c2 => c2.slug == goToLower name) = none := by
      apply List.find?_eq_none.mpr
      intro c2 hc2
      have := (h c2 hc2).2
      simp only [beq_iff_eq]
      exact fun hq => this hq.symm
    rw [h1, h2]

/-- Witness for C6: `resolve` of an unrecognized name fails. -/
theorem c6_witness : resolve "totally-bogus-name" = none :=
  c6_resolve_case_insensitive.2.2.1 "totally-bogus-name" (by
    intro c hc
    have hb : (checks.all (fun c2 =>
        (!(goToUpper "totally-bogus-name" == goToUpper c2.id)) &&
        (!(goToLower "totally-bogus-name" == c2.slug)))) = true := by decide
    have h2 := List.all_eq_true.mp hb c hc
    simp only [Bool.and_eq_true, Bool.not_eq_eq_eq_not, Bool.not_true,
      beq_eq_false_iff_ne, ne_eq] at h2
    exact ⟨h2.1, h2.2⟩)

/-- C5: `ResolveAll` fails exactly when some name that is non-empty after
trimming resolves neither as an ID nor as a slug, and on the stated example
the single error message names both bogus names. -/
theorem c5_resolveAll_collects_all_unknown :
    (∀ names : List String,
      (∃ msg, resolveAll names = Except.error msg) ↔
        ∃ n ∈ names, trimString n ≠ "" ∧ resolve (trimString n) = none) ∧
    resolveAll ["ACL-001", "bogus-1", "bogus-2"] =
      Except.error "unknown check(s): bogus-1, bogus-2" := by
  constructor
  · intro names
    unfold resolveAll
    have hspec := (resolveAllAux_spec names).2
    constructor
    · intro hex
      obtain ⟨msg, hmsg⟩ := hex
      by_cases he : (resolveAllAux names).2.isEmpty
      · rw [if_pos he] at hmsg
        exact Except.noConfusion hmsg
      · have hne : (resolveAllAux names).2 ≠ [] := by
          intro hnil
          exact he (by simp [hnil])
        rw [hspec] at hne
        have : ¬ ∀ n ∈ names,
            (fun n =>
              if trimString n = "" then none
              else
                match resolve (trimString n) with
                | some _ => none
                | none => some (trimString n)) n = none := by
          intro hall
          exact hne (List.filterMap_eq_nil_iff.mpr hall)
        push_neg at this
        obtain ⟨n, hn, hval⟩ := this
        refine ⟨n, hn, ?_, ?_⟩
        · intro ht
          exact hval (by simp [ht])
        · by_cases ht : trimString n = ""
          · exact absurd (by simp [ht]) hval
          · cases hr : resolve (trimString n) with
            | some cid => exact absurd (by simp [ht, hr]) hval
            | none => rfl
    · intro hex
      obtain ⟨n, hn, hne, hres⟩ := hex
      have hmem : (trimString n) ∈ (resolveAllAux names).2 := by
        rw [hspec]
        refine List.mem_filterMap.mpr ⟨n, hn, ?_⟩
        simp [hne, hres]
      have hnonempty : (resolveAllAux names).2.isEmpty = false := by
        cases hl : (resolveAllAux names).2 with
        | nil => rw [hl] at hmem; cases hmem
        | cons a l => simp [hl]
      simp only [hnonempty, Bool.false_eq_true, if_false]
      exact ⟨_, rfl⟩
  · rfl

/-- Witness for C5: a list containing one unresolvable name makes
`resolveAll` fail. -/
theorem c5_witness : ∃ msg, resolveAll ["nonsense"] = Except.error msg :=
  (c5_resolveAll_collects_all_unknown.1 ["nonsense"]).mpr
    ⟨"nonsense", by simp, by decide, by decide⟩

/-- C10: `ResolveAll` trims every input name, silently skips names that trim
to the empty string (they are never reported as unknown and contribute no
ID), and both the returned IDs and the unresolved names preserve input
order. -/
theorem c10_resolveAll_trims_and_skips_empties :
    ∀ names : List String,
      (resolveAllAux names).1 =
        names.filterMap (fun n => if trimString n = "" then none else resolve (trimString n)) ∧
      (resolveAllAux names).2 =
        names.filterMap (fun n =>
          if trimString n = "" then none
          else
            match resolve (trimString n) with
            | some _ => none
            | none => some (trimString n)) ∧
      resolveAll (names.filter (fun n => !(trimString n == ""))) = resolveAll names := by
  intro names
  refine ⟨(resolveAllAux_spec names).1, (resolveAllAux_spec names).2, ?_⟩
  unfold resolveAll
  rw [resolveAllAux_filter]

/-! ## Claim theorems: summary -/

theorem severity_beq_iff : ∀ a b : Severity, ((a == b) = true) ↔ a = b := by
  intro a b
  cases a <;> cases b <;> decide

theorem countP_pass_add_not_pass (ss : List Suggestion) :
    ss.countP (fun s => s.pass) + ss.countP (fun s => !s.pass) = ss.length := by
  induction ss with
  | nil => rfl
  | cons s rest ih =>
    simp only [List.countP_cons, List.length_cons]
    cases hp : s.pass <;> simp [hp] <;> omega

theorem severity_counts_sum (ss : List Suggestion) :
    (calculateSummary ss).critical + (calculateSummary ss).high + (calculateSummary ss).medium
        + (calculateSummary ss).low + (calculateSummary ss).info
      = ss.countP (fun s => !s.pass) := by
  induction ss with
  | nil => rfl
  | cons s rest ih =>
    simp only [calculateSummary, List.countP_cons] at ih ⊢
    cases hp : s.pass <;> cases hs : s.severity <;>
      simp [hp, hs, severity_beq_iff] <;> omega

/-- C8: the recomputed summary is a pure aggregate of the suggestions — its
severity counts sum to the number of failing suggestions, passed is the
rest, total is the length; appending one failing critical suggestion and
recomputing changes only the critical count and the total, each by one. -/
theorem c8_summary_aggregate :
    ∀ ss : List Suggestion,
      ((calculateSummary ss).critical + (calculateSummary ss).high + (calculateSummary ss).medium
          + (calculateSummary ss).low + (calculateSummary ss).info
        = ss.countP (fun s => !s.pass)) ∧
      (calculateSummary ss).passed = ss.length - ss.countP (fun s => !s.pass) ∧
      (calculateSummary ss).total = ss.length ∧
      ∀ sug : Suggestion, sug.pass = false → sug.severity = Severity.critical →
        ((calculateSummary (ss ++ [sug])).critical = (calculateSummary ss).critical + 1 ∧
         (calculateSummary (ss ++ [sug])).total = (calculateSummary ss).total + 1 ∧
         (calculateSummary (ss ++ [sug])).high = (calculateSummary ss).high ∧
         (calculateSummary (ss ++ [sug])).medium = (calculateSummary ss).medium ∧
         (calculateSummary (ss ++ [sug])).low = (calculateSummary ss).low ∧
         (calculateSummary (ss ++ [sug])).info = (calculateSummary ss).info ∧
         (calculateSummary (ss ++ [sug])).passed = (calculateSummary ss).passed) := by
  intro ss
  refine ⟨severity_counts_sum ss, ?_, rfl, ?_⟩
  · have h := countP_pass_add_not_pass ss
    simp only [calculateSummary]
    omega
  · intro sug hp hs
    simp only [calculateSummary, List.countP_append, List.countP_cons, List.countP_nil,
      List.length_append, List.length_cons, List.length_nil, hp, hs]
    refine ⟨?_, ?_, ?_, ?_, ?_, ?_, ?_⟩ <;> simp [severity_beq_iff]

/-- Witness for C8: appending one failing critical finding to a one-element
report bumps exactly the critical count and the total. -/
theorem c8_witness :
    (calculateSummary ([demoPassing] ++ [demoCritical])).critical
        = (calculateSummary [demoPassing]).critical + 1 ∧
    (calculateSummary ([demoPassing] ++ [demoCritical])).total
        = (calculateSummary [demoPassing]).total + 1 ∧
    (calculateSummary ([demoPassing] ++ [demoCritical])).high
        = (calculateSummary [demoPassing]).high ∧
    (calculateSummary ([demoPassing] ++ [demoCritical])).medium
        = (calculateSummary [demoPassing]).medium ∧
    (calculateSummary ([demoPassing] ++ [demoCritical])).low
        = (calculateSummary [demoPassing]).low ∧
    (calculateSummary ([demoPassing] ++ [demoCritical])).info
        = (calculateSummary [demoPassing]).info ∧
    (calculateSummary ([demoPassing] ++ [demoCritical])).passed
        = (calculateSummary [demoPassing]).passed :=
  (c8_summary_aggregate [demoPassing]).2.2.2 demoCritical rfl rfl

/-! ## Claim theorems: orchestrator -/

/-- C1: an authentication-class failure of the shared policy fetch aborts
the run at once — no report, the distinguished wrapped authentication
error, no category audit and no placeholder finding. -/
theorem c1_auth_failure_aborts :
    ∀ (Policy : Type) (zero : Policy) (env : RunEnv Policy) (e : String),
      env.aclFetch = Except.error e → isAuthError e = true →
      run zero env = Except.error (authFailureMessage e) ∧
      runTrace env = [RunEvent.fetchPolicy] := by
  intro Policy zero env e hf ha
  constructor
  · simp [run, hf, ha]
  · simp [runTrace, hf, ha]

/-- Witness for C1: a 401 fetch failure aborts the concrete run. -/
theorem c1_witness :
    run () authFailEnv = Except.error (authFailureMessage "401 Unauthorized") ∧
    runTrace authFailEnv = [RunEvent.fetchPolicy] :=
  c1_auth_failure_aborts Unit () authFailEnv "401 Unauthorized" rfl (by decide)

/-- C2: if only the device category audit fails (with a non-authentication
error), `Run` still returns a report and a nil error; the report holds all
other categories' findings in order plus exactly the one `DEV-ERR`
placeholder, failing with medium severity and naming the error. -/
theorem c2_device_failure_degrades :
    ∀ (Policy : Type) (zero : Policy) (env : RunEnv Policy)
      (a s : String) (p : Policy) (f1 f2 f4 f5 f6 f7 : List Suggestion) (e : String),
      env.aclFetch = Except.ok a →
      env.standardize a = Except.ok s →
      env.unmarshal s = Except.ok p →
      env.aclAudit = Except.ok f1 →
      env.authAudit = Except.ok f2 →
      env.deviceAudit = Except.error e →
      env.networkAudit p = Except.ok f4 →
      env.sshAudit p = Except.ok f5 →
      env.loggingAudit = Except.ok f6 →
      env.dnsAudit = Except.ok f7 →
      run zero env = Except.ok
        { tailnet := env.tailnet,
          suggestions := f1 ++ f2 ++ [devErrSuggestion e] ++ f4 ++ f5 ++ f6 ++ f7,
          summary := calculateSummary (f1 ++ f2 ++ [devErrSuggestion e] ++ f4 ++ f5 ++ f6 ++ f7) } ∧
      (devErrSuggestion e).id = "DEV-ERR" ∧
      (devErrSuggestion e).pass = false ∧
      (devErrSuggestion e).severity = Severity.medium ∧
      (devErrSuggestion e).description = "Error during device audit: " ++ e := by
  intro Policy zero env a s p f1 f2 f4 f5 f6 f7 e hf hs hu h1 h2 h3 h4 h5 h6 h7
  refine ⟨?_, rfl, rfl, rfl, rfl⟩
  simp [run, categoryBlocks, hf, hs, hu, h1, h2, h3, h4, h5, h6, h7]

/-- Witness for C2: the concrete run with a failing device audit yields a
report whose only finding is the `DEV-ERR` placeholder. -/
theorem c2_witness :
    run () deviceFailEnv = Except.ok
      { tailnet := "example.com",
        suggestions := [] ++ [] ++ [devErrSuggestion "device fetch failed"] ++ [] ++ [] ++ [] ++ [],
        summary := calculateSummary
          ([] ++ [] ++ [devErrSuggestion "device fetch failed"] ++ [] ++ [] ++ [] ++ []) } ∧
    (devErrSuggestion "device fetch failed").id = "DEV-ERR" ∧
    (devErrSuggestion "device fetch failed").pass = false ∧
    (devErrSuggestion "device fetch failed").severity = Severity.medium ∧
    (devErrSuggestion "device fetch failed").description
      = "Error during device audit: " ++ "device fetch failed" :=
  c2_device_failure_degrades Unit () deviceFailEnv "{}" "{}" () [] [] [] [] [] []
    "device fetch failed" rfl rfl rfl rfl rfl rfl rfl rfl rfl rfl

/-- C3 counterexample: when the shared policy fetch fails with the
non-authentication error "boom", the synthesized placeholder has ID
`SYS-001` — which does not follow the `<CATEGORY>-ERR` pattern — and
severity High, not Medium, so the claim as stated is false. -/
theorem c3_counterexample :
    run () cexEnv = Except.ok
      { tailnet := "example.com",
        suggestions := [sysAclFetchFailed "boom"],
        summary := calculateSummary [sysAclFetchFailed "boom"] } ∧
    (sysAclFetchFailed "boom").id = "SYS-001" ∧
    "-ERR".data.isSuffixOf "SYS-001".data = false ∧
    (sysAclFetchFailed "boom").severity = Severity.high ∧
    Severity.high ≠ Severity.medium := by
  refine ⟨rfl, rfl, by decide, rfl, by decide⟩

/-- C3 amended: when the shared policy-document fetch fails with a
non-authentication error, the orchestrator synthesizes exactly one
placeholder Suggestion with ID "SYS-001" (not the `<CATEGORY>-ERR`
pattern) and Severity=High (not Medium), Pass=false, whose Description
names the underlying error, and continues running all remaining
categories. -/
theorem c3_amended_fetch_failure_placeholder :
    ∀ (Policy : Type) (zero : Policy) (env : RunEnv Policy) (e : String),
      env.aclFetch = Except.error e → isAuthError e = false →
      run zero env = Except.ok
        { tailnet := env.tailnet,
          suggestions := sysAclFetchFailed e :: categoryBlocks env zero,
          summary := calculateSummary (sysAclFetchFailed e :: categoryBlocks env zero) } ∧
      (sysAclFetchFailed e).id = "SYS-001" ∧
      (sysAclFetchFailed e).severity = Severity.high ∧
      (sysAclFetchFailed e).pass = false ∧
      (sysAclFetchFailed e).description
        = "Failed to retrieve ACL policy: " ++ e ++ ". ACL-related checks will be skipped." ∧
      runTrace env =
        RunEvent.fetchPolicy :: categoryOrder.map RunEvent.runCategory ++ [RunEvent.computeSummary] := by
  intro Policy zero env e hf ha
  refine ⟨?_, rfl, rfl, rfl, rfl, ?_⟩
  · simp [run, hf, ha]
  · simp [runTrace, hf, ha]

/-- Witness for the amended C3: the concrete run whose fetch fails with
"boom" produces the `SYS-001` placeholder and still runs every category. -/
theorem c3_amended_witness :
    run () cexEnv = Except.ok
      { tailnet := "example.com",
        suggestions := sysAclFetchFailed "boom" :: categoryBlocks cexEnv (),
        summary := calculateSummary (sysAclFetchFailed "boom" :: categoryBlocks cexEnv ()) } ∧
    (sysAclFetchFailed "boom").id = "SYS-001" ∧
    (sysAclFetchFailed "boom").severity = Severity.high ∧
    (sysAclFetchFailed "boom").pass = false ∧
    (sysAclFetchFailed "boom").description
      = "Failed to retrieve ACL policy: " ++ "boom" ++ ". ACL-related checks will be skipped." ∧
    runTrace cexEnv =
      RunEvent.fetchPolicy :: categoryOrder.map RunEvent.runCategory ++ [RunEvent.computeSummary] :=
  c3_amended_fetch_failure_placeholder Unit () cexEnv "boom" rfl (by decide)

/-- C4: when the shared policy document fetches but fails to parse (HuJSON
standardization or JSON unmarshal), the run prepends exactly one
low-severity `SYS-002` parse warning and still runs every category block,
handing the network and SSH audits the zero-value policy. -/
theorem c4_parse_failure_zero_policy :
    ∀ (Policy : Type) (zero : Policy) (env : RunEnv Policy) (a : String),
      env.aclFetch = Except.ok a →
      (∀ e, env.standardize a = Except.error e →
        run zero env = Except.ok
          { tailnet := env.tailnet,
            suggestions := sysAclStandardizeWarning e :: categoryBlocks env zero,
            summary := calculateSummary (sysAclStandardizeWarning e :: categoryBlocks env zero) } ∧
        (sysAclStandardizeWarning e).id = "SYS-002" ∧
        (sysAclStandardizeWarning e).severity = Severity.low ∧
        runTrace env =
          RunEvent.fetchPolicy :: categoryOrder.map RunEvent.runCategory ++ [RunEvent.computeSummary]) ∧
      (∀ s e, env.standardize a = Except.ok s → env.unmarshal s = Except.error e →
        run zero env = Except.ok
          { tailnet := env.tailnet,
            suggestions := sysAclParseWarning e :: categoryBlocks env zero,
            summary := calculateSummary (sysAclParseWarning e :: categoryBlocks env zero) } ∧
        (sysAclParseWarning e).id = "SYS-002" ∧
        (sysAclParseWarning e).severity = Severity.low ∧
        runTrace env =
          RunEvent.fetchPolicy :: categoryOrder.map RunEvent.runCategory ++ [RunEvent.computeSummary]) := by
  intro Policy zero env a hf
  constructor
  · intro e hstd
    refine ⟨?_, rfl, rfl, ?_⟩
    · simp [run, hf, hstd]
    · simp [runTrace, hf]
  · intro s e hstd hum
    refine ⟨?_, rfl, rfl, ?_⟩
    · simp [run, hf, hstd, hum]
    · simp [runTrace, hf]

/-- Witness for C4: the concrete run whose HuJSON standardization fails
gets one low-severity `SYS-002` warning and still runs every category. -/
theorem c4_witness :
    run () parseFailEnv = Except.ok
      { tailnet := "example.com",
        suggestions := sysAclStandardizeWarning "bad hujson" :: categoryBlocks parseFailEnv (),
        summary := calculateSummary
          (sysAclStandardizeWarning "bad hujson" :: categoryBlocks parseFailEnv ()) } ∧
    (sysAclStandardizeWarning "bad hujson").id = "SYS-002" ∧
    (sysAclStandardizeWarning "bad hujson").severity = Severity.low ∧
    runTrace parseFailEnv =
      RunEvent.fetchPolicy :: categoryOrder.map RunEvent.runCategory ++ [RunEvent.computeSummary] :=
  (c4_parse_failure_zero_policy Unit () parseFailEnv "{}" rfl).1 "bad hujson" rfl

/-- C9: every non-aborted run fetches the shared policy document exactly
once, runs the seven category audits in the fixed source order, appends
their findings in that order after the (possibly empty) fetch/parse
prefix, and computes the summary exactly once, after all categories. -/
theorem c9_fixed_order_once :
    ∀ (Policy : Type) (zero : Policy) (env : RunEnv Policy),
      (∀ e, env.aclFetch = Except.error e → isAuthError e = false) →
      runTrace env =
        [ RunEvent.fetchPolicy
        , RunEvent.runCategory Category.accessControl
        , RunEvent.runCategory Category.authentication
        , RunEvent.runCategory Category.deviceSecurity
        , RunEvent.runCategory Category.networkExposure
        , RunEvent.runCategory Category.sshSecurity
        , RunEvent.runCategory Category.loggingAdmin
        , RunEvent.runCategory Category.dnsConfiguration
        , RunEvent.computeSummary ] ∧
      ∃ pre policy,
        run zero env = Except.ok
          { tailnet := env.tailnet,
            suggestions := pre ++ categoryBlocks env policy,
            summary := calculateSummary (pre ++ categoryBlocks env policy) } := by
  intro Policy zero env h
  cases hf : env.aclFetch with
  | error e =>
    have ha := h e hf
    constructor
    · simp [runTrace, hf, ha, categoryOrder]
    · exact ⟨[sysAclFetchFailed e], zero, by simp [run, hf, ha]⟩
  | ok a =>
    constructor
    · simp [runTrace, hf, categoryOrder]
    · cases hstd : env.standardize a with
      | error e => exact ⟨[sysAclStandardizeWarning e], zero, by simp [run, hf, hstd]⟩
      | ok s =>
        cases hum : env.unmarshal s with
        | error e => exact ⟨[sysAclParseWarning e], zero, by simp [run, hf, hstd, hum]⟩
        | ok p => exact ⟨[], p, by simp [run, hf, hstd, hum]⟩

/-- Witness for C9: the all-successful concrete run has the full fixed
trace and a report built from the category blocks. -/
theorem c9_witness :
    runTrace unitEnvOk =
      [ RunEvent.fetchPolicy
      , RunEvent.runCategory Category.accessControl
      , RunEvent.runCategory Category.authentication
      , RunEvent.runCategory Category.deviceSecurity
      , RunEvent.runCategory Category.networkExposure
      , RunEvent.runCategory Category.sshSecurity
      , RunEvent.runCategory Category.loggingAdmin
      , RunEvent.runCategory Category.dnsConfiguration
      , RunEvent.computeSummary ] ∧
    ∃ pre policy,
      run () unitEnvOk = Except.ok
        { tailnet := "example.com",
          suggestions := pre ++ categoryBlocks unitEnvOk policy,
          summary := calculateSummary (pre ++ categoryBlocks unitEnvOk policy) } :=
  c9_fixed_order_once Unit () unitEnvOk (fun _ he => Except.noConfusion he)

end Tailsnitch
